import Mathlib

/-!
# Verification of the fujisuite-server route engine

Shallow embedding of the route aggregation/normalization engine of
`nwah/fujisuite-server` (Go).  Source files embedded here:

* `src/nav/routing.go` — polyline decoding/normalization, unit conversion,
  instruction abbreviation, step icons, the Valhalla (direct-routing) and
  Transitland (itinerary) adapters, and the transit→auto fallback in `route`.
* `src/unnamed/part_001` (`nav` types) — transport modes, units, grid size.
* `src/unnamed/part_002` (`nav` handlers) — plain-text formatting
  (`formatDuration`, `formatDistance`, `writePlainTextRoute`), `parseLatLng`,
  and the GET/POST boundary of `HandleRoute`.

Modelling conventions:

* Go `float64` values are modelled as exact fractions (the type `Q` below:
  an integer numerator over a positive integer denominator, with the usual
  cross-multiplication arithmetic).  A bespoke fraction type is used instead
  of Mathlib's `ℚ` so that every arithmetic step reduces inside the kernel
  (`Rat`'s operations are `@[irreducible]`).  All properties proved here are
  branch/shape properties that do not depend on binary-float rounding, and
  concrete counterexample inputs were chosen so that the `float64` run of the
  Go code and the exact-fraction run agree.
* Go strings are Lean `String`s; the algorithms of Go's `strings` package used
  by the source (`ToLower`, `ToUpper`, `TrimSpace`, `Split`, `TrimRight`,
  `ReplaceAll`, `Contains`, `TrimSuffix`) are re-implemented structurally on
  the character list so that every definition evaluates inside the kernel.
  Only ASCII behaviour is relied upon (all inputs of interest are ASCII).
* HTTP transport is out of scope: the backends appear as oracle functions
  passed to `routeTrace`, mapping the request to the (already JSON-decoded)
  backend outcome, exactly the information the Go code extracts from the wire.
-/

namespace FujiNav

/-! ## Exact fractions standing in for `float64` -/

/-- An exact fraction: `num / den`.  Every value built by the embedding has
`den > 0`; fractions are not reduced, and all comparisons go through
cross-multiplication, so reduction is unnecessary. -/
structure Q where
  num : Int
  den : Int
deriving DecidableEq, Repr

/-- Embed an integer. -/
def Q.ofInt (n : Int) : Q := ⟨n, 1⟩

/-- Value-level equality (Go `==` on floats). -/
def Q.eqv (a b : Q) : Prop := a.num * b.den = b.num * a.den

instance (a b : Q) : Decidable (a.eqv b) := Int.decEq _ _

/-- Value-level strict order (Go `<` on floats). -/
def Q.lt (a b : Q) : Prop := a.num * b.den < b.num * a.den

instance (a b : Q) : Decidable (a.lt b) := Int.decLt _ _

/-- Value-level order (Go `<=` on floats). -/
def Q.le (a b : Q) : Prop := a.num * b.den ≤ b.num * a.den

instance (a b : Q) : Decidable (a.le b) := Int.decLe _ _

def Q.add (a b : Q) : Q := ⟨a.num * b.den + b.num * a.den, a.den * b.den⟩

def Q.sub (a b : Q) : Q := ⟨a.num * b.den - b.num * a.den, a.den * b.den⟩

def Q.mul (a b : Q) : Q := ⟨a.num * b.num, a.den * b.den⟩

def Q.neg (a : Q) : Q := ⟨-a.num, a.den⟩

/-- Restore the positive-denominator invariant after a division. -/
def Q.fix (a : Q) : Q := if a.den < 0 then ⟨-a.num, -a.den⟩ else a

/-- Division.  Never applied to a zero divisor by the embedded code (the
decoder substitutes span 1 for a zero span before dividing). -/
def Q.div (a b : Q) : Q := Q.fix ⟨a.num * b.den, a.den * b.num⟩

/-- Floor, for fractions with a positive denominator (Euclidean division
rounds toward −∞ when the divisor is positive). -/
def Q.floor (a : Q) : Int := a.num / a.den

/-- Model of Go `math.Round`: round half away from zero. -/
def roundHalfAway (q : Q) : Int :=
  if (Q.ofInt 0).le q then (q.add ⟨1, 2⟩).floor else -(((q.neg).add ⟨1, 2⟩).floor)

/-- Round to the nearest integer, ties to even — the rounding used by Go's
`fmt` `%.*f` verbs. -/
def roundHalfEven (q : Q) : Int :=
  let f := q.floor
  let frac := q.sub (Q.ofInt f)
  if frac.lt ⟨1, 2⟩ then f
  else if Q.lt ⟨1, 2⟩ frac then f + 1
  else if f % 2 = 0 then f else f + 1

/-- Truncation toward zero (model of Go's `int(x)` conversion). -/
def qtrunc (q : Q) : Int :=
  if (Q.ofInt 0).le q then q.floor else -((q.neg).floor)

/-- Model of Go `math.Min` on the fractions standing in for floats. -/
def qmin (a b : Q) : Q := if a.lt b then a else b

/-- Model of Go `math.Max`. -/
def qmax (a b : Q) : Q := if a.lt b then b else a

/-! ## Character and string helpers (embedding of the `strings` stdlib calls) -/

/-- ASCII lower-casing of one character (model of Go `strings.ToLower` on the
ASCII range, the only range exercised by the server). -/
def lowerChar (c : Char) : Char :=
  if 'A' ≤ c ∧ c ≤ 'Z' then Char.ofNat (c.toNat + 32) else c

/-- ASCII upper-casing of one character. -/
def upperChar (c : Char) : Char :=
  if 'a' ≤ c ∧ c ≤ 'z' then Char.ofNat (c.toNat - 32) else c

/-- Model of Go `strings.ToLower` (ASCII). -/
def goToLower (s : String) : String := ⟨s.data.map lowerChar⟩

/-- Model of Go `strings.ToUpper` (ASCII). -/
def goToUpper (s : String) : String := ⟨s.data.map upperChar⟩

/-- Whitespace recognised by Go `strings.TrimSpace` (ASCII subset). -/
def isSpaceChar (c : Char) : Bool :=
  c = ' ' ∨ c = '\t' ∨ c = '\n' ∨ c = '\r' ∨ c = '\x0b' ∨ c = '\x0c'

/-- Model of Go `strings.TrimSpace` (ASCII whitespace). -/
def goTrimSpace (s : String) : String :=
  ⟨((s.data.dropWhile isSpaceChar).reverse.dropWhile isSpaceChar).reverse⟩

/-- Model of Go `strings.TrimRight(s, "\r")`. -/
def goTrimRightCR (s : String) : String :=
  ⟨(s.data.reverse.dropWhile (· = '\r')).reverse⟩

/-- Split a character list at every occurrence of the separator character. -/
def splitCharAux (sep : Char) : List Char → List Char → List String
  | [], acc => [⟨acc.reverse⟩]
  | c :: rest, acc =>
    if c = sep then ⟨acc.reverse⟩ :: splitCharAux sep rest []
    else splitCharAux sep rest (c :: acc)

/-- Model of Go `strings.Split(s, sep)` for a one-character separator (the
source only splits on `"\n"` and `","`). -/
def goSplitChar (s : String) (sep : Char) : List String :=
  splitCharAux sep s.data []

/-- Is `p` a prefix of `l`? -/
def isPrefixList : List Char → List Char → Bool
  | [], _ => true
  | _ :: _, [] => false
  | p :: ps, c :: cs => p = c && isPrefixList ps cs

/-- Does `l` contain `p` as a substring? -/
def containsList (l p : List Char) : Bool :=
  match l with
  | [] => isPrefixList p []
  | _ :: rest => isPrefixList p l || containsList rest p

/-- Model of Go `strings.Contains`. -/
def goContains (s pat : String) : Bool := containsList s.data pat.data

/-- Fuel-driven core of `ReplaceAll`: scan left to right, replacing each
non-overlapping occurrence of `pat` (nonempty in all uses) by `rep`.  The fuel
is an upper bound on the number of characters consumed; it is always called
with fuel = length of the list, which suffices because every step consumes at
least one character. -/
def replaceAllAux (pat rep : List Char) : Nat → List Char → List Char
  | 0, l => l
  | _ + 1, [] => []
  | fuel + 1, c :: cs =>
    if pat ≠ [] ∧ isPrefixList pat (c :: cs) then
      rep ++ replaceAllAux pat rep fuel ((c :: cs).drop pat.length)
    else
      c :: replaceAllAux pat rep fuel cs

/-- Model of Go `strings.ReplaceAll` (for the nonempty patterns the source
uses; empty pattern is an unused edge case and is left as the identity). -/
def goReplaceAll (s pat rep : String) : String :=
  ⟨replaceAllAux pat.data rep.data s.data.length s.data⟩

/-- Model of Go `strings.TrimSuffix`. -/
def goTrimSuffix (s suffix : String) : String :=
  if suffix.data.isSuffixOf s.data then ⟨s.data.take (s.data.length - suffix.data.length)⟩
  else s

/-- Decimal digits of a natural number, most significant first (fuel-driven so
that it evaluates in the kernel; fuel = the number itself suffices). -/
def natDigitsAux : Nat → Nat → List Char
  | 0, _ => []
  | _ + 1, 0 => []
  | fuel + 1, n =>
    natDigitsAux fuel (n / 10) ++ [Char.ofNat (n % 10 + 48)]

/-- Decimal rendering of a natural number (model of Go `%d` on nonnegative
values). -/
def natToDec (n : Nat) : String :=
  if n = 0 then "0" else ⟨natDigitsAux (n + 1) n⟩

/-- Decimal rendering of an integer (model of Go `%d`). -/
def intToDec (i : Int) : String :=
  if i < 0 then "-" ++ natToDec i.natAbs else natToDec i.natAbs

/-- Model of Go `fmt.Sprintf("%.0f", q)`. -/
def fmtF0 (q : Q) : String := intToDec (roundHalfEven q)

/-- One-decimal rendering of a nonnegative fraction. -/
def fmtF1Abs (q : Q) : String :=
  let n := (roundHalfEven (q.mul (Q.ofInt 10))).toNat
  natToDec (n / 10) ++ "." ++ natToDec (n % 10)

/-- Model of Go `fmt.Sprintf("%.1f", q)`. -/
def fmtF1 (q : Q) : String :=
  if q.lt (Q.ofInt 0) then "-" ++ fmtF1Abs q.neg else fmtF1Abs q

/-! ## Domain types (src/unnamed/part_001 and part_003: package `nav` types) -/

/-- Go: `type TransportMode string`. -/
abbrev TransportMode := String

def ModeWalking : TransportMode := "walking"
def ModeBiking : TransportMode := "biking"
def ModeAuto : TransportMode := "auto"
def ModeTransit : TransportMode := "transit"

/-- Go: `DefaultMode = ModeAuto`. -/
def DefaultMode : TransportMode := ModeAuto

/-- Go: `type DistanceUnit string`. -/
abbrev DistanceUnit := String

def UnitKilometers : DistanceUnit := "km"
def UnitMiles : DistanceUnit := "mi"

/-- Go: `DefaultUnit = UnitKilometers`. -/
def DefaultUnit : DistanceUnit := UnitKilometers

/-- Go: `type CountryCode string`. -/
abbrev CountryCode := String

/-- Go: `NormalizedGridSize = 100`. -/
def NormalizedGridSize : Int := 100

/-- Go `TransportMode.IsValid`. -/
def TransportMode.IsValid (m : TransportMode) : Bool :=
  m = ModeWalking ∨ m = ModeBiking ∨ m = ModeAuto ∨ m = ModeTransit

/-- Go `DistanceUnit.IsValid`. -/
def DistanceUnit.IsValid (u : DistanceUnit) : Bool :=
  u = UnitKilometers ∨ u = UnitMiles

/-- Go `CountryCode.IsValid`: exactly two characters. -/
def CountryCode.IsValid (c : CountryCode) : Bool := c.data.length = 2

/-- Go `NavConfig` (src/unnamed/part_003). -/
structure NavConfig where
  NominatimURL : String
  ValhallaURL : String
  TransitlandURL : String
  TransitlandAPIKey : String
deriving DecidableEq

/-- Go `RouteRequest` (coordinates as exact fractions). -/
structure RouteRequest where
  FromLat : Q
  FromLng : Q
  ToLat : Q
  ToLng : Q
  FromDesc : String
  ToDesc : String
  Mode : TransportMode
  Units : DistanceUnit
  Country : CountryCode
deriving DecidableEq

/-- Go `RouteStep`. -/
structure RouteStep where
  Number : Int
  Description : String
  Distance : Q
  Icon : String
deriving DecidableEq

/-- Go `PathPoint`: `[2]int` as a pair of integers. -/
abbrev PathPoint := Int × Int

/-- Go `Path`. -/
structure Path where
  Points : List PathPoint
  Length : Int
  Width : Int
  Height : Int
deriving DecidableEq

/-- Go `Location`. -/
structure Location where
  Desc : String
  Lat : Q
  Lng : Q
deriving DecidableEq

/-- Go `RouteResponse`. -/
structure RouteResponse where
  Duration : Q
  Distance : Q
  Units : DistanceUnit
  Steps : List RouteStep
  Path : Path
  Mode : TransportMode
  From : Location
  To : Location
deriving DecidableEq

/-! ## Polyline decoder/normalizer (src/nav/routing.go `decodePolyline`) -/

/-- Go helper `min` from routing.go. -/
def goMin (a b : Int) : Int := if a < b then a else b

/-- Go helper `max` from routing.go. -/
def goMax (a b : Int) : Int := if a > b then a else b

/-- Go helper `abs` from routing.go. -/
def absInt (x : Int) : Int := if x < 0 then -x else x

/-- Manhattan distance between two grid points, as computed by the dedup loop
of `decodePolyline`: `abs(x-existing[0]) + abs(y-existing[1])`. -/
def manhattan (p q : PathPoint) : Int := absInt (p.1 - q.1) + absInt (p.2 - q.2)

/-- One varint of the encoded polyline: consume 5-bit groups (char − 63)
while the continuation bit (value ≥ 0x20) is set, OR-ing each group shifted
into place.  Mirrors the inner loops of `decodePolyline`.  Go indexes bytes
and would panic past the end of a truncated string; the model stops instead
(only malformed inputs differ, and no claim depends on them). -/
def decodeVarint : List Char → Nat → Nat → Nat × List Char
  | [], _, result => (result, [])
  | c :: rest, shift, result =>
    let b : Int := (c.toNat : Int) - 63
    let result := result ||| (((b % 32).toNat) <<< shift)
    if 32 ≤ b then decodeVarint rest (shift + 5) result
    else (result, rest)

/-- Sign decoding: Go applies `^(result >> 1)` when the low bit is set, i.e.
`-(result >> 1) - 1`, else `result >> 1`. -/
def zigzag (result : Nat) : Int :=
  if result % 2 = 1 then -((result / 2 : Nat) : Int) - 1 else ((result / 2 : Nat) : Int)

/-- First pass of `decodePolyline`: accumulate (lat, lng) integer pairs.
Fuel-driven so the kernel can evaluate it; each iteration consumes at least
one character, so fuel = the character count suffices. -/
def decodePairs : Nat → Int → Int → List Char → List (Int × Int)
  | 0, _, _, _ => []
  | _ + 1, _, _, [] => []
  | fuel + 1, lat, lng, cs =>
    let r1 := decodeVarint cs 0 0
    let lat := lat + zigzag r1.1
    let r2 := decodeVarint r1.2 0 0
    let lng := lng + zigzag r2.1
    (lat, lng) :: decodePairs fuel lat lng r2.2

/-- The raw geographic points: accumulated integers divided by `10^precision`
with precision 5. -/
def rawPoints (encoded : String) : List (Q × Q) :=
  (decodePairs encoded.data.length 0 0 encoded.data).map
    (fun p => (⟨p.1, 100000⟩, ⟨p.2, 100000⟩))

/-- Minimum of a list of fractions starting from a seed (Go folds `math.Min`
over `rawPoints[1:]` starting from `rawPoints[0]`). -/
def foldMin (seed : Q) (l : List Q) : Q := l.foldl qmin seed

/-- Maximum of a list of fractions starting from a seed. -/
def foldMax (seed : Q) (l : List Q) : Q := l.foldl qmax seed

/-- Projection of one raw point onto the grid, as in `decodePolyline`:
round, then clamp with `max(0, min(NormalizedGridSize, ·))` on each axis. -/
def projectPoint (minLat minLng latRange lngRange : Q) (p : Q × Q) : PathPoint :=
  let x := roundHalfAway (((p.2.sub minLng).div lngRange).mul (Q.ofInt NormalizedGridSize))
  let y := roundHalfAway (((p.1.sub minLat).div latRange).mul (Q.ofInt NormalizedGridSize))
  (goMax 0 (goMin NormalizedGridSize x), goMax 0 (goMin NormalizedGridSize y))

/-- The dedup step of `decodePolyline`: keep the point only if no previously
retained point is within Manhattan distance 2. -/
def dedupStep (acc : List PathPoint) (p : PathPoint) : List PathPoint :=
  if acc.any (fun existing => manhattan p existing ≤ 2) then acc else acc ++ [p]

/-- Go `decodePolyline`: decode, compute bounds (substituting span 1 for a
zero span), project onto the 100×100 grid, and deduplicate. -/
def decodePolyline (encoded : String) : List PathPoint :=
  if encoded = "" then []
  else
    match rawPoints encoded with
    | [] => []
    | p₀ :: rest =>
      let minLat := foldMin p₀.1 (rest.map Prod.fst)
      let maxLat := foldMax p₀.1 (rest.map Prod.fst)
      let minLng := foldMin p₀.2 (rest.map Prod.snd)
      let maxLng := foldMax p₀.2 (rest.map Prod.snd)
      let latRange := if (maxLat.sub minLat).eqv (Q.ofInt 0) then Q.ofInt 1 else maxLat.sub minLat
      let lngRange := if (maxLng.sub minLng).eqv (Q.ofInt 0) then Q.ofInt 1 else maxLng.sub minLng
      ((p₀ :: rest).map (projectPoint minLat minLng latRange lngRange)).foldl dedupStep []

/-! ## Unit conversion and distance/duration formatting -/

/-- Go `metersPerMile = 1609.344`. -/
def metersPerMile : Q := ⟨1609344, 1000⟩

/-- Go `getTransportMode`: canonical mode → Valhalla costing token. -/
def getTransportMode (mode : TransportMode) : String :=
  if mode = ModeWalking then "pedestrian"
  else if mode = ModeBiking then "bicycle"
  else if mode = ModeTransit then "transit"
  else "auto"

/-- Go `getValhallaUnits`. -/
def getValhallaUnits (units : DistanceUnit) : String :=
  if units = UnitMiles then "miles" else "kilometers"

/-- Go `convertDistance`: meters → requested unit. -/
def convertDistance (meters : Q) (units : DistanceUnit) : Q :=
  if units = UnitMiles then meters.div metersPerMile
  else meters.div (Q.ofInt 1000)

/-- Go `formatUSDistance` (routing.go): feet under 1000 ft or under 0.1 mi,
otherwise miles with one decimal. -/
def formatUSDistance (meters : Q) : String :=
  let feet := meters.mul ⟨328084, 100000⟩
  if feet.lt (Q.ofInt 1000) then fmtF0 feet ++ " feet"
  else
    let miles := feet.div (Q.ofInt 5280)
    if miles.lt ⟨1, 10⟩ then fmtF0 feet ++ " feet"
    else fmtF1 miles ++ " miles"

/-- Go `formatDuration` (part_002). -/
def formatDuration (seconds : Q) : String :=
  let hours := qtrunc (seconds.div (Q.ofInt 3600))
  let minutes := qtrunc ((seconds.sub (Q.ofInt (hours * 3600))).div (Q.ofInt 60))
  if 0 < hours then
    if 0 < minutes then intToDec hours ++ "hr " ++ intToDec minutes ++ "min"
    else intToDec hours ++ "hr"
  else intToDec minutes ++ "min"

/-- Go `formatDistance` (part_002): for miles, feet below 0.1 mi; for
kilometers, meters below 1 km; otherwise one decimal plus the unit suffix. -/
def formatDistance (distance : Q) (units : DistanceUnit) : String :=
  if units = UnitMiles then
    if distance.lt ⟨1, 10⟩ then fmtF0 (distance.mul (Q.ofInt 5280)) ++ "ft"
    else fmtF1 distance ++ "mi"
  else
    if distance.lt (Q.ofInt 1) then fmtF0 (distance.mul (Q.ofInt 1000)) ++ "m"
    else fmtF1 distance ++ "km"

/-! ## Step classifier (routing.go `abbreviateInstruction`, `getStepIcon`) -/

/-- Go `abbreviateInstruction`: arrival rewrite, trailing-period strip, then
the fixed substring abbreviation table, in source order. -/
def abbreviateInstruction (instruction : String) : String :=
  if goContains instruction "You have arrived at your destination" then
    "Arrive at destination"
  else
    let i := goTrimSuffix instruction "."
    let i := goReplaceAll i " onto " " on "
    let i := goReplaceAll i " Avenue" " Ave"
    let i := goReplaceAll i " Street" " St"
    let i := goReplaceAll i " Road" " Rd"
    let i := goReplaceAll i " Boulevard" " Blvd"
    let i := goReplaceAll i " Drive" " Dr"
    let i := goReplaceAll i " Court" " Ct"
    let i := goReplaceAll i " Circle" " Cir"
    let i := goReplaceAll i " Highway" " Hwy"
    let i := goReplaceAll i " Parkway" " Pkwy"
    let i := goReplaceAll i " Place" " Pl"
    let i := goReplaceAll i " Square" " Sq"
    let i := goReplaceAll i " Terrace" " Ter"
    let i := goReplaceAll i " Trail" " Trl"
    let i := goReplaceAll i " Turnpike" " Tpke"
    let i := goReplaceAll i " Lane" " Ln"
    let i := goReplaceAll i " North " " N "
    let i := goReplaceAll i " South " " S "
    let i := goReplaceAll i " East " " E "
    let i := goReplaceAll i " West " " W "
    let i := goReplaceAll i " Northeast " " NE "
    let i := goReplaceAll i " Northwest " " NW "
    let i := goReplaceAll i " Southeast " " SE "
    let i := goReplaceAll i " Southwest " " SW "
    i

/-- Go `getStepIcon`: transit leg modes take precedence; otherwise the closed
maneuver-type table; unknown codes map to the empty token. -/
def getStepIcon (maneuverType : Int) (_instruction : String) (mode : String) : String :=
  let m := goToUpper mode
  if m = "BUS" then "Bus"
  else if m = "RAIL" ∨ m = "SUBWAY" ∨ m = "TRAM" ∨ m = "TRAIN" then "Train"
  else if m = "FERRY" ∨ m = "BOAT" then "Ferry"
  else if m = "WALK" then "Walk"
  else
    let t := maneuverType
    if t = 2 ∨ t = 10 ∨ t = 11 ∨ t = 12 ∨ t = 1 then "Right"
    else if t = 3 ∨ t = 13 ∨ t = 14 ∨ t = 15 ∨ t = 19 then "Left"
    else if t = 9 ∨ t = 23 then "right"
    else if t = 16 ∨ t = 24 then "left"
    else if t = 7 ∨ t = 8 ∨ t = 17 ∨ t = 22 then "Straight"
    else if t = 25 ∨ t = 26 ∨ t = 37 ∨ t = 38 then "Merge"
    else if t = 20 ∨ t = 21 ∨ t = 27 then "Exit"
    else if t = 28 ∨ t = 29 then "Ferry"
    else if t = 42 ∨ t = 43 then "building"
    else ""

/-! ## Direct-routing (Valhalla) adapter structures and assembly -/

/-- Go `valhallaManeuver`.  The Go field `Type` (a reserved word in Lean) is
embedded as `MType`. -/
structure valhallaManeuver where
  MType : Int
  Instruction : String
  Distance : Q
deriving DecidableEq

/-- Go `valhallaLeg`. -/
structure valhallaLeg where
  Maneuvers : List valhallaManeuver
  Shape : String
deriving DecidableEq

/-- The `summary` object inside a Valhalla trip. -/
structure valhallaSummary where
  Time : Q
  Distance : Q
deriving DecidableEq

/-- The `trip` object of a Valhalla response. -/
structure valhallaTrip where
  Legs : List valhallaLeg
  Summary : valhallaSummary
deriving DecidableEq

/-- Go `valhallaResponse`. -/
structure valhallaResponse where
  Trip : valhallaTrip
deriving DecidableEq

/-- The step-building loop of `route` (`for i, maneuver := range
vResp.Trip.Legs[0].Maneuvers`), with `i` the running index: number the step
`i+1`, abbreviate the instruction, convert the maneuver length (km/mi units ×
1000 = meters) and classify the icon — overridden on the first step by the
request mode for biking/walking/auto. -/
def valhallaSteps (req : RouteRequest) (i : Nat) : List valhallaManeuver → List RouteStep
  | [] => []
  | m :: rest =>
    let icon := getStepIcon m.MType m.Instruction ""
    let icon :=
      if i = 0 then
        if req.Mode = ModeBiking then "Cycle"
        else if req.Mode = ModeWalking then "Walk"
        else if req.Mode = ModeAuto then "Drive"
        else icon
      else icon
    { Number := (i : Int) + 1
      Description := abbreviateInstruction m.Instruction
      Distance := convertDistance (m.Distance.mul (Q.ofInt 1000)) req.Units
      Icon := icon } :: valhallaSteps req (i + 1) rest

/-- The pure assembly tail of `route` once a 200 response has been decoded:
summary totals, request labels, steps from the first leg's maneuvers, path
from the first leg's shape.  When the trip has no legs, steps stay empty and
the path stays the Go zero value `Path{}`. -/
def assembleValhalla (req : RouteRequest) (v : valhallaResponse) : RouteResponse :=
  let base : RouteResponse :=
    { Duration := v.Trip.Summary.Time
      Distance := convertDistance (v.Trip.Summary.Distance.mul (Q.ofInt 1000)) req.Units
      Units := req.Units
      Mode := req.Mode
      Steps := []
      Path := ⟨[], 0, 0, 0⟩
      From := ⟨req.FromDesc, req.FromLat, req.FromLng⟩
      To := ⟨req.ToDesc, req.ToLat, req.ToLng⟩ }
  match v.Trip.Legs with
  | [] => base
  | leg :: _ =>
    let points := decodePolyline leg.Shape
    { base with
      Steps := valhallaSteps req 0 leg.Maneuvers
      Path := ⟨points, (points.length : Int), NormalizedGridSize, NormalizedGridSize⟩ }

/-! ## Itinerary (Transitland) adapter structures and assembly -/

/-- The from/to stop object of an itinerary leg. -/
structure transitPlace where
  Name : String
  StopId : String
  StopCode : String
deriving DecidableEq

/-- The `legGeometry` object of an itinerary leg. -/
structure transitLegGeometry where
  Points : String
deriving DecidableEq

/-- One leg of a Transitland itinerary.  Of the `intermediateStops` array the
Go code consumes only the length, so the model carries the count.  The
`steps` array of the JSON shape is never read and is omitted. -/
structure transitLeg where
  Mode : String
  Distance : Q
  Duration : Q
  From : transitPlace
  To : transitPlace
  RouteId : String
  RouteShortName : String
  RouteLongName : String
  AgencyName : String
  LegGeometry : transitLegGeometry
  IntermediateStops : Nat
deriving DecidableEq

/-- One Transitland itinerary. -/
structure transitItinerary where
  Duration : Q
  WalkTime : Q
  TransitTime : Q
  WalkDistance : Q
  Legs : List transitLeg
deriving DecidableEq

/-- The `plan` object of a Transitland response. -/
structure transitlandPlan where
  Itineraries : List transitItinerary
deriving DecidableEq

/-- Go `transitlandResponse`. -/
structure transitlandResponse where
  Plan : transitlandPlan
deriving DecidableEq

/-- The per-leg description/icon synthesis of `routeTransitUS` (the `switch
leg.Mode` block). -/
def describeLeg (req : RouteRequest) (leg : transitLeg) : String × String :=
  if leg.Mode = "WALK" then
    let description :=
      if req.Country = "us" then "Walk " ++ formatUSDistance leg.Distance
      else "Walk " ++ fmtF0 leg.Distance ++ " meters"
    let description :=
      if leg.To.Name ≠ "" then description ++ " to " ++ leg.To.Name else description
    (description, "Walk")
  else if leg.Mode = "BUS" ∨ leg.Mode = "RAIL" ∨ leg.Mode = "SUBWAY" ∨ leg.Mode = "TRAM" ∨
      leg.Mode = "FERRY" then
    let description := "Take"
    let description :=
      if leg.RouteShortName ≠ "" then description ++ " the " ++ leg.RouteShortName
      else description
    let description :=
      if leg.RouteLongName ≠ "" then description ++ " " ++ leg.RouteLongName else description
    let description :=
      if leg.AgencyName ≠ "" then description ++ " operated by " ++ leg.AgencyName
      else description
    let description :=
      if leg.From.Name ≠ "" ∧ leg.To.Name ≠ "" then
        description ++ " from " ++ leg.From.Name ++ " to " ++ leg.To.Name
      else description
    let description :=
      if 0 < leg.IntermediateStops then
        description ++ " (" ++ natToDec leg.IntermediateStops ++ " stops)"
      else description
    (description, getStepIcon 0 "" leg.Mode)
  else
    let description :=
      if req.Country = "us" then leg.Mode ++ " for " ++ formatUSDistance leg.Distance
      else leg.Mode ++ " for " ++ fmtF0 leg.Distance ++ " meters"
    (description, "Straight")

/-- The points contributed by one leg: its geometry decoded, or nothing when
the geometry string is empty. -/
def transitLegPoints (leg : transitLeg) : List PathPoint :=
  if leg.LegGeometry.Points ≠ "" then decodePolyline leg.LegGeometry.Points else []

/-- The leg loop of `routeTransitUS` (`for i, leg := range itinerary.Legs`):
build the numbered steps and concatenate each leg's decoded geometry. -/
def transitSteps (req : RouteRequest) (i : Nat) :
    List transitLeg → List RouteStep × List PathPoint
  | [] => ([], [])
  | leg :: rest =>
    let d := describeLeg req leg
    let step : RouteStep :=
      { Number := (i : Int) + 1
        Description := d.1
        Distance := convertDistance leg.Distance req.Units
        Icon := d.2 }
    let pts := transitLegPoints leg
    let r := transitSteps req (i + 1) rest
    (step :: r.1, pts ++ r.2)

/-- The pure assembly tail of `routeTransitUS` once a 200 response has been
decoded: error on zero itineraries, otherwise fix on the first itinerary,
summary from its duration and walk distance, steps and concatenated path from
its legs. -/
def assembleTransit (req : RouteRequest) (t : transitlandResponse) :
    Except String RouteResponse :=
  match t.Plan.Itineraries with
  | [] => .error "no route found"
  | itinerary :: _ =>
    let sp := transitSteps req 0 itinerary.Legs
    .ok
      { Duration := itinerary.Duration
        Distance := convertDistance itinerary.WalkDistance req.Units
        Units := req.Units
        Mode := req.Mode
        Steps := sp.1
        Path := ⟨sp.2, (sp.2.length : Int), NormalizedGridSize, NormalizedGridSize⟩
        From := ⟨req.FromDesc, req.FromLat, req.FromLng⟩
        To := ⟨req.ToDesc, req.ToLat, req.ToLng⟩ }

/-- Go `routeTransitUS`, with the HTTP fetch abstracted: the configuration
check, then the decoded response (or the transport failure) handed over to
the assembly. -/
def routeTransitUS (cfg : NavConfig) (req : RouteRequest)
    (fetch : Except String transitlandResponse) : Except String RouteResponse :=
  if cfg.TransitlandURL = "" ∨ cfg.TransitlandAPIKey = "" then
    .error "transitland configuration not complete"
  else
    match fetch with
    | .error e => .error e
    | .ok t => assembleTransit req t

/-! ## Fallback policy engine (routing.go `route`) -/

/-- The parsed structured error body of a failed Valhalla call. -/
structure ValhallaError where
  ErrorCode : Int
  Error : String
  StatusCode : Int
  Status : String
deriving DecidableEq

/-- The observable outcome of one Valhalla POST, as the Go code distinguishes
it: a decoded 200 response; a non-200 status whose body may or may not parse
as a structured error; or a transport error. -/
inductive ValhallaOutcome where
  | ok (resp : valhallaResponse)
  | httpErr (status : Nat) (parsed : Option ValhallaError) (raw : String)
  | netErr (msg : String)
deriving DecidableEq

/-- The units-defaulting mutation at the head of `route`:
`if req.Units == "" { req.Units = DefaultUnit }`. -/
def normUnits (req : RouteRequest) : RouteRequest :=
  if req.Units = "" then { req with Units := DefaultUnit } else req

/-- Units defaulting leaves the transport mode untouched. -/
theorem normUnits_Mode (req : RouteRequest) : (normUnits req).Mode = req.Mode := by
  unfold normUnits
  split <;> rfl

/-- Instrumented embedding of Go `route`: identical control flow, with the two
backends as oracles (`tl` for the Transitland fetch, `v` for the Valhalla
POST), returning both the list of requests for which a Valhalla call was
issued and the result.  The error-code-170 branch re-enters `route` with the
mode forced to auto, exactly as the source does; termination holds because
the re-entry always carries a non-transit mode. -/
def routeTrace (cfg : NavConfig) (tl : RouteRequest → Except String transitlandResponse)
    (v : RouteRequest → ValhallaOutcome) (req : RouteRequest) :
    List RouteRequest × Except String RouteResponse :=
  if req.Mode = ModeTransit ∧ req.Country = "us" ∧ cfg.TransitlandURL ≠ "" then
    ([], routeTransitUS cfg req (tl req))
  else
    let nreq := normUnits req
    if ¬ nreq.Units.IsValid then
      ([], .error "invalid units: must be one of: km, mi")
    else
      match v nreq with
      | .ok resp => ([nreq], .ok (assembleValhalla nreq resp))
      | .netErr m => ([nreq], .error ("error making request to Valhalla: " ++ m))
      | .httpErr status none raw =>
        ([nreq], .error ("valhalla API returned status " ++ natToDec status ++ ": " ++ raw))
      | .httpErr _ (some e) _ =>
        if e.ErrorCode = 170 then
          if h : nreq.Mode = ModeTransit then
            let retry := routeTrace cfg tl v { nreq with Mode := ModeAuto }
            (nreq :: retry.1, retry.2)
          else
            ([nreq],
              .error "no route found: locations are not connected in the transportation network")
        else ([nreq], .error ("routing error: " ++ e.Error))
termination_by (if req.Mode = ModeTransit then 1 else 0)
decreasing_by
  have hm : req.Mode = ModeTransit := by
    rw [← normUnits_Mode req]
    exact h
  simp [hm, ModeAuto, ModeTransit]

/-- Go `route`: the result component of the instrumented run. -/
def route (cfg : NavConfig) (tl : RouteRequest → Except String transitlandResponse)
    (v : RouteRequest → ValhallaOutcome) (req : RouteRequest) :
    Except String RouteResponse :=
  (routeTrace cfg tl v req).2

/-! ## Wire encoder and HTTP boundary (src/unnamed/part_002) -/

/-- Digit run at the head of the input: accumulated value, number of digits
consumed, rest. -/
def takeDigitsAux (acc n : Nat) : List Char → Nat × Nat × List Char
  | [] => (acc, n, [])
  | c :: rest =>
    if '0' ≤ c ∧ c ≤ '9' then takeDigitsAux (acc * 10 + (c.toNat - 48)) (n + 1) rest
    else (acc, n, c :: rest)

/-- Model of Go `strconv.ParseFloat` restricted to plain decimal literals
(optional sign, integer part, optional fractional part).  Exponent, `inf` and
`nan` spellings are not modelled — no claim touches them, and every
coordinate exercised below is a plain decimal. -/
def parseFloatQ (s : String) : Option Q :=
  let p := fun (cs : List Char) (neg : Bool) =>
    let ip := takeDigitsAux 0 0 cs
    let signed := fun (v : Q) => if neg then v.neg else v
    match ip.2.2 with
    | [] => if ip.2.1 = 0 then none else some (signed ⟨ip.1, 1⟩)
    | '.' :: rest =>
      let fp := takeDigitsAux 0 0 rest
      if fp.2.2 ≠ [] then none
      else if ip.2.1 = 0 ∧ fp.2.1 = 0 then none
      else some (signed ⟨(ip.1 * 10 ^ fp.2.1 + fp.1 : Nat), (10 ^ fp.2.1 : Nat)⟩)
    | _ => none
  match s.data with
  | '-' :: rest => p rest true
  | '+' :: rest => p rest false
  | cs => p cs false

/-- Go `parseLatLng`: split on the comma, require exactly two parts, parse
both as floats.  The error text of `strconv` is abbreviated — only which
branch failed is observable in the claims. -/
def parseLatLng (s : String) : Except String (Q × Q) :=
  match goSplitChar s ',' with
  | [p1, p2] =>
    match parseFloatQ (goTrimSpace p1) with
    | none => .error "invalid latitude"
    | some lat =>
      match parseFloatQ (goTrimSpace p2) with
      | none => .error "invalid longitude"
      | some lng => .ok (lat, lng)
  | _ => .error "invalid lat,lng format"

/-- The per-step lines of `writePlainTextRoute`: for each step its icon line,
then its description line — with `" (<formatted distance>)"` appended when
the mode is not transit and the step is not the last
(`i < len(result.Steps)-1`). -/
def stepLines (mode : TransportMode) (units : DistanceUnit) : List RouteStep → List String
  | [] => []
  | [step] => [step.Icon, step.Description]
  | step :: next :: rest =>
    [step.Icon,
      if mode ≠ ModeTransit then
        step.Description ++ " (" ++ formatDistance step.Distance units ++ ")"
      else step.Description] ++ stepLines mode units (next :: rest)

/-- The lines of a successful plain-text route response, in order: formatted
duration, formatted distance, step count, then two lines per step.  Each Go
`fmt.Fprintf(w, "%s\n", x)` contributes exactly one element. -/
def writePlainTextRouteLines (result : RouteResponse) : List String :=
  [formatDuration result.Duration,
   formatDistance result.Distance result.Units,
   natToDec result.Steps.length] ++ stepLines result.Mode result.Units result.Steps

/-- Go `writePlainTextRoute`: the response body, each line
newline-terminated. -/
def writePlainTextRoute (result : RouteResponse) : String :=
  String.join ((writePlainTextRouteLines result).map (· ++ "\n"))

/-- The parsing/validation phase of the POST arm of `HandleRoute`: trim the
body, split into lines, require at least 5, then mode/units/country with
silent defaulting (invalid tokens are replaced, not rejected), optional
descriptions on lines 6–7, and the two coordinate pairs. -/
def parsePostRouteRequest (body : String) : Except String RouteRequest :=
  let lines := goSplitChar (goTrimSpace body) '\n'
  if lines.length < 5 then .error "request must contain at least 5 lines"
  else
    let mode := goTrimSpace (goTrimRightCR (lines.getD 0 ""))
    let country := goTrimSpace (goTrimRightCR (lines.getD 1 ""))
    let units := goTrimSpace (goTrimRightCR (lines.getD 2 ""))
    let fromStr := goTrimSpace (goTrimRightCR (lines.getD 3 ""))
    let toStr := goTrimSpace (goTrimRightCR (lines.getD 4 ""))
    let transportMode := goToLower mode
    let transportMode := if TransportMode.IsValid transportMode then transportMode else DefaultMode
    let distanceUnit := goToLower units
    let distanceUnit := if DistanceUnit.IsValid distanceUnit then distanceUnit else DefaultUnit
    let countryCode := goToLower country
    let countryCode := if CountryCode.IsValid countryCode then countryCode else ("us" : CountryCode)
    let fromDesc := if 5 < lines.length then goTrimSpace (goTrimRightCR (lines.getD 5 "")) else ""
    let toDesc := if 6 < lines.length then goTrimSpace (goTrimRightCR (lines.getD 6 "")) else ""
    match parseLatLng fromStr with
    | .error _ => .error "invalid 'from' coordinates"
    | .ok fc =>
      match parseLatLng toStr with
      | .error _ => .error "invalid 'to' coordinates"
      | .ok tc =>
        .ok
          { FromLat := fc.1, FromLng := fc.2, ToLat := tc.1, ToLng := tc.2
            FromDesc := fromDesc, ToDesc := toDesc
            Mode := transportMode, Units := distanceUnit, Country := countryCode }

/-- The POST arm of `HandleRoute` with the routing core abstracted as
`routeFn`: every failure path emits the 4-line stub `"\n\n0\n<msg>\n"`, and
success renders `writePlainTextRoute`. -/
def handleRoutePost (routeFn : RouteRequest → Except String RouteResponse)
    (body : String) : String :=
  match parsePostRouteRequest body with
  | .error m => "\n\n0\n" ++ m ++ "\n"
  | .ok req =>
    match routeFn req with
    | .error m => "\n\n0\n" ++ m ++ "\n"
    | .ok result => writePlainTextRoute result

/-- The query parameters of a GET route request (Go reads them from
`r.URL.Query()`; `from`/`to` are reserved words in Lean and carry a `Q`
suffix). -/
structure GetParams where
  fromQ : String
  toQ : String
  mode : String
  units : String
  country : String
  fromDesc : String
  toDesc : String
deriving DecidableEq

/-- What the GET arm writes back: `writeError(status, message)` or
`writeJSON(result)`. -/
inductive HttpReply where
  | err (status : Nat) (message : String)
  | ok (result : RouteResponse)
deriving DecidableEq

/-- The GET arm of `HandleRoute` with the routing core abstracted: required
`from`/`to`, country/mode/units validation with client-fault rejections, the
two coordinate parses, then the core; a core error is surfaced with a
server-fault 500 status. -/
def handleRouteGet (routeFn : RouteRequest → Except String RouteResponse)
    (p : GetParams) : HttpReply :=
  let country := goToLower p.country
  if p.fromQ = "" ∨ p.toQ = "" then
    .err 400 "both 'from' and 'to' parameters are required"
  else if country ≠ "" ∧ ¬ CountryCode.IsValid country then
    .err 400 "country must be a valid 2-letter ISO code in lowercase"
  else if p.mode ≠ "" ∧ ¬ TransportMode.IsValid (goToLower p.mode) then
    .err 400 "invalid mode. Must be one of: walking, biking, auto, transit"
  else if p.units ≠ "" ∧ ¬ DistanceUnit.IsValid (goToLower p.units) then
    .err 400 "invalid units. Must be one of: km, mi"
  else
    let transportMode := if p.mode = "" then DefaultMode else goToLower p.mode
    let distanceUnit := if p.units = "" then DefaultUnit else goToLower p.units
    match parseLatLng p.fromQ with
    | .error e => .err 400 ("invalid 'from' parameter: " ++ e)
    | .ok fc =>
      match parseLatLng p.toQ with
      | .error e => .err 400 ("invalid 'to' parameter: " ++ e)
      | .ok tc =>
        match routeFn
            { FromLat := fc.1, FromLng := fc.2, ToLat := tc.1, ToLng := tc.2
              FromDesc := p.fromDesc, ToDesc := p.toDesc
              Mode := transportMode, Units := distanceUnit, Country := country } with
        | .error e => .err 500 e
        | .ok result => .ok result

/-- Decidable equality for `Except`, used to evaluate concrete adapter
outcomes inside the kernel. -/
instance {ε α : Type} [DecidableEq ε] [DecidableEq α] : DecidableEq (Except ε α) :=
  fun a b =>
    match a, b with
    | .error e, .error f => decidable_of_iff (e = f) (by simp)
    | .error _, .ok _ => isFalse (by simp)
    | .ok _, .error _ => isFalse (by simp)
    | .ok x, .ok y => decidable_of_iff (x = y) (by simp)

/-! ## Helper lemmas: the dedup scan and the grid clamp -/

/-- The Manhattan distance of the dedup loop is symmetric. -/
theorem manhattan_comm (p q : PathPoint) : manhattan p q = manhattan q p := by
  unfold manhattan absInt
  split <;> split <;> split <;> split <;> omega

/-- The separation relation maintained by the dedup scan. -/
def farApart (p q : PathPoint) : Prop := 2 < manhattan p q

/-- One dedup step preserves pairwise separation of the retained list: a point
is appended only when no retained point is within Manhattan distance 2. -/
theorem dedupStep_pairwise {acc : List PathPoint} (p : PathPoint)
    (hacc : acc.Pairwise farApart) : (dedupStep acc p).Pairwise farApart := by
  unfold dedupStep
  split
  · exact hacc
  · next hnot =>
    rw [List.pairwise_append]
    refine ⟨hacc, List.pairwise_singleton _ _, ?_⟩
    intro a ha b hb
    rw [List.mem_singleton] at hb
    rw [hb]
    have hfar : ¬ (manhattan p a ≤ 2) := by
      intro hle
      exact hnot (List.any_eq_true.mpr ⟨a, ha, decide_eq_true hle⟩)
    unfold farApart
    rw [manhattan_comm]
    omega

/-- The dedup fold preserves pairwise separation. -/
theorem dedup_foldl_pairwise (ps : List PathPoint) (acc : List PathPoint)
    (hacc : acc.Pairwise farApart) : (ps.foldl dedupStep acc).Pairwise farApart := by
  induction ps generalizing acc with
  | nil => exact hacc
  | cons p rest ih => exact ih _ (dedupStep_pairwise p hacc)

/-- Every point of `decodePolyline` output is pairwise more than Manhattan
distance 2 from every other retained point. -/
theorem decodePolyline_pairwise (encoded : String) :
    (decodePolyline encoded).Pairwise farApart := by
  unfold decodePolyline
  split
  · exact List.Pairwise.nil
  · split
    · exact List.Pairwise.nil
    · exact dedup_foldl_pairwise _ _ List.Pairwise.nil

/-- The clamp `max(0, min(NormalizedGridSize, z))` lands in `[0, 100]`. -/
theorem clamp_bounds (z : Int) :
    0 ≤ goMax 0 (goMin NormalizedGridSize z) ∧
      goMax 0 (goMin NormalizedGridSize z) ≤ NormalizedGridSize := by
  unfold goMax goMin NormalizedGridSize
  split <;> split <;> omega

/-- Membership in the dedup fold comes from the accumulator or the input. -/
theorem dedup_foldl_mem (ps : List PathPoint) (acc : List PathPoint) (p : PathPoint)
    (hp : p ∈ ps.foldl dedupStep acc) : p ∈ acc ∨ p ∈ ps := by
  induction ps generalizing acc with
  | nil => exact Or.inl hp
  | cons q rest ih =>
    rcases ih _ hp with h | h
    · unfold dedupStep at h
      split at h
      · exact Or.inl h
      · rw [List.mem_append, List.mem_singleton] at h
        rcases h with h | h
        · exact Or.inl h
        · subst h
          exact Or.inr (List.mem_cons_self _ _)
    · exact Or.inr (List.mem_cons_of_mem _ h)

/-- Every projected point is clamped into the grid. -/
theorem projectPoint_bounds (minLat minLng latRange lngRange : Q) (p : Q × Q) :
    0 ≤ (projectPoint minLat minLng latRange lngRange p).1 ∧
      (projectPoint minLat minLng latRange lngRange p).1 ≤ NormalizedGridSize ∧
      0 ≤ (projectPoint minLat minLng latRange lngRange p).2 ∧
      (projectPoint minLat minLng latRange lngRange p).2 ≤ NormalizedGridSize := by
  unfold projectPoint
  refine ⟨(clamp_bounds _).1, (clamp_bounds _).2, (clamp_bounds _).1, (clamp_bounds _).2⟩

/-- Every output point of `decodePolyline` lies inside `[0, 100]²`. -/
theorem decodePolyline_mem_bounds (encoded : String) (p : PathPoint)
    (hp : p ∈ decodePolyline encoded) :
    0 ≤ p.1 ∧ p.1 ≤ NormalizedGridSize ∧ 0 ≤ p.2 ∧ p.2 ≤ NormalizedGridSize := by
  unfold decodePolyline at hp
  split at hp
  · simp at hp
  · split at hp
    · simp at hp
    · rcases dedup_foldl_mem _ _ _ hp with h | h
      · simp at h
      · rw [List.mem_map] at h
        obtain ⟨q, _, hq⟩ := h
        subst hq
        exact projectPoint_bounds _ _ _ _ _

/-! ## C2: retained points are pairwise more than Manhattan distance 2 apart -/

/-- C2.  For every encoded curve input, no two points retained in the output
of `decodePolyline` are within Manhattan distance ≤ 2 of each other: the
retained list is pairwise separated by more than 2 (`farApart`), in
particular for any two positions `i < j` of the output. -/
theorem decodePolyline_retained_pairwise_manhattan_gt_two (encoded : String) :
    (decodePolyline encoded).Pairwise (fun p q => 2 < manhattan p q) :=
  decodePolyline_pairwise encoded

/-! ## C3: output points lie in [0, 100]², not [0, 99]² -/

/-- C3 counterexample.  The two-point curve `"??SS"` (deltas (0,0) and
(10,10)) normalizes to `[(0,0), (100,100)]`: the maximal point projects to
exactly `NormalizedGridSize = 100`, outside `[0, 99]²` — the clamp in
`decodePolyline` is `min(NormalizedGridSize, ·)`, not
`min(NormalizedGridSize-1, ·)`. -/
theorem decodePolyline_exceeds_grid99_counterexample :
    decodePolyline "??SS" = [(0, 0), (100, 100)] ∧
      ∃ p ∈ decodePolyline "??SS", ¬ (p.1 ≤ 99 ∧ p.2 ≤ 99) := by decide

/-- C3 amended.  For every encoded curve, every output point of
`decodePolyline` lies in `[0, NormalizedGridSize]²` = `[0, 100]²` (the grid
bound is inclusive, one more than `GRID − 1 = 99`). -/
theorem decodePolyline_points_within_zero_to_grid (encoded : String) (p : PathPoint)
    (hp : p ∈ decodePolyline encoded) :
    0 ≤ p.1 ∧ p.1 ≤ NormalizedGridSize ∧ 0 ≤ p.2 ∧ p.2 ≤ NormalizedGridSize :=
  decodePolyline_mem_bounds encoded p hp

/-- C3 amended, witnessed at the concrete curve `"??SS"` and its retained
point `(100, 100)`. -/
theorem decodePolyline_points_within_zero_to_grid_witness :
    (100, 100) ∈ decodePolyline "??SS" ∧
      (0 ≤ (100 : Int) ∧ (100 : Int) ≤ NormalizedGridSize ∧
        0 ≤ (100 : Int) ∧ (100 : Int) ≤ NormalizedGridSize) :=
  ⟨by decide, decodePolyline_points_within_zero_to_grid "??SS" (100, 100) (by decide)⟩

/-! ## C4: step numbering is contiguous, but direct routing uses only the
first leg -/

/-- The step loop of `route` numbers its output `i+1, i+2, …` and produces
one step per maneuver of the list it walks. -/
theorem valhallaSteps_length (req : RouteRequest) (i : Nat) (ms : List valhallaManeuver) :
    (valhallaSteps req i ms).length = ms.length := by
  induction ms generalizing i with
  | nil => rfl
  | cons m rest ih => simp [valhallaSteps, ih]

/-- Step numbers produced by the `route` loop are the running index plus
one. -/
theorem valhallaSteps_number (req : RouteRequest) (i : Nat) (ms : List valhallaManeuver) :
    ∀ j (hj : j < (valhallaSteps req i ms).length),
      ((valhallaSteps req i ms).get ⟨j, hj⟩).Number = (i : Int) + (j : Int) + 1 := by
  induction ms generalizing i with
  | nil => intro j hj; simp [valhallaSteps] at hj
  | cons m rest ih =>
    intro j hj
    cases j with
    | zero => simp [valhallaSteps]
    | succ j' =>
      have hj' : j' < (valhallaSteps req (i + 1) rest).length := by
        rw [valhallaSteps_length]
        rw [valhallaSteps_length] at hj
        simp at hj
        omega
      have heq : ((valhallaSteps req i (m :: rest)).get ⟨j' + 1, hj⟩).Number
          = ((valhallaSteps req (i + 1) rest).get ⟨j', hj'⟩).Number := rfl
      rw [heq, ih (i + 1) j' hj']
      push_cast
      ring

/-- The leg loop of `routeTransitUS` produces one step per leg. -/
theorem transitSteps_length (req : RouteRequest) (i : Nat) (legs : List transitLeg) :
    (transitSteps req i legs).1.length = legs.length := by
  induction legs generalizing i with
  | nil => rfl
  | cons leg rest ih => simp [transitSteps, ih]

/-- Step numbers produced by the `routeTransitUS` loop are the running index
plus one. -/
theorem transitSteps_number (req : RouteRequest) (i : Nat) (legs : List transitLeg) :
    ∀ j (hj : j < (transitSteps req i legs).1.length),
      ((transitSteps req i legs).1.get ⟨j, hj⟩).Number = (i : Int) + (j : Int) + 1 := by
  induction legs generalizing i with
  | nil => intro j hj; simp [transitSteps] at hj
  | cons leg rest ih =>
    intro j hj
    cases j with
    | zero => simp [transitSteps]
    | succ j' =>
      have hj' : j' < (transitSteps req (i + 1) rest).1.length := by
        rw [transitSteps_length]
        rw [transitSteps_length] at hj
        simp at hj
        omega
      have heq : ((transitSteps req i (leg :: rest)).1.get ⟨j' + 1, hj⟩).Number
          = ((transitSteps req (i + 1) rest).1.get ⟨j', hj'⟩).Number := rfl
      rw [heq, ih (i + 1) j' hj']
      push_cast
      ring

/-- An all-default request used by the concrete scenarios below. -/
def reqAuto : RouteRequest :=
  { FromLat := ⟨0, 1⟩, FromLng := ⟨0, 1⟩, ToLat := ⟨0, 1⟩, ToLng := ⟨0, 1⟩
    FromDesc := "", ToDesc := "", Mode := ModeAuto, Units := UnitKilometers, Country := "" }

/-- A Valhalla response whose trip has two legs with one maneuver each. -/
def vRespTwoLegs : valhallaResponse :=
  ⟨⟨[⟨[⟨1, "Go", ⟨1, 1⟩⟩], ""⟩, ⟨[⟨4, "Arrive", ⟨1, 1⟩⟩], ""⟩],
    ⟨⟨625, 1⟩, ⟨32, 10⟩⟩⟩⟩

/-- C4 counterexample.  On a trip with two legs of one maneuver each (total
maneuvers = 2), the assembled result has a single step: `route` walks only
`vResp.Trip.Legs[0].Maneuvers`, so maneuvers of later legs never become
steps. -/
theorem route_steps_drop_second_leg_counterexample :
    (vRespTwoLegs.Trip.Legs.map (fun l => l.Maneuvers.length)).sum = 2 ∧
      (assembleValhalla reqAuto vRespTwoLegs).Steps.length = 1 := by decide

/-- C4 amended.  Step numbers always form the contiguous sequence `1..N`; for
the direct-routing adapter `N` is the maneuver count of the **first** leg
(0 when the trip has no legs), and for the itinerary adapter `N` is the
number of legs of the chosen itinerary. -/
theorem step_numbers_contiguous_first_leg_or_legs :
    (∀ (req : RouteRequest) (v : valhallaResponse),
      (assembleValhalla req v).Steps.length =
        (match v.Trip.Legs with | [] => 0 | leg :: _ => leg.Maneuvers.length) ∧
      ∀ j (hj : j < (assembleValhalla req v).Steps.length),
        ((assembleValhalla req v).Steps.get ⟨j, hj⟩).Number = (j : Int) + 1)
    ∧ (∀ (req : RouteRequest) (t : transitlandResponse) (r : RouteResponse),
      assembleTransit req t = .ok r →
      (∃ itinerary rest, t.Plan.Itineraries = itinerary :: rest ∧
        r.Steps.length = itinerary.Legs.length) ∧
      ∀ j (hj : j < r.Steps.length), (r.Steps.get ⟨j, hj⟩).Number = (j : Int) + 1) := by
  constructor
  · intro req v
    unfold assembleValhalla
    cases hlegs : v.Trip.Legs with
    | nil => exact ⟨rfl, fun j hj => by simp at hj⟩
    | cons leg rest =>
      refine ⟨valhallaSteps_length req 0 leg.Maneuvers, fun j hj => ?_⟩
      have := valhallaSteps_number req 0 leg.Maneuvers j (by simpa using hj)
      simpa using this
  · intro req t r hok
    unfold assembleTransit at hok
    cases hits : t.Plan.Itineraries with
    | nil => rw [hits] at hok; exact absurd hok (by simp)
    | cons itinerary rest =>
      rw [hits] at hok
      simp only [Except.ok.injEq] at hok
      subst hok
      refine ⟨⟨itinerary, rest, rfl, by simpa using transitSteps_length req 0 itinerary.Legs⟩,
        fun j hj => ?_⟩
      have := transitSteps_number req 0 itinerary.Legs j (by simpa using hj)
      simpa using this

/-- C4 amended, witnessed on the concrete two-leg trip: the single assembled
step carries number 1. -/
theorem step_numbers_contiguous_first_leg_or_legs_witness :
    (0 : Nat) < (assembleValhalla reqAuto vRespTwoLegs).Steps.length ∧
      ((assembleValhalla reqAuto vRespTwoLegs).Steps.get
        ⟨0, by decide⟩).Number = (0 : Int) + 1 :=
  ⟨by decide,
    (step_numbers_contiguous_first_leg_or_legs.1 reqAuto vRespTwoLegs).2 0 (by decide)⟩

/-! ## C5: the dedup invariant holds per decoded segment, not across the
itinerary concatenation -/

/-- A zero-length walking leg whose geometry is the single point `(0,0)`. -/
def walkLegPoint : transitLeg :=
  { Mode := "WALK", Distance := ⟨0, 1⟩, Duration := ⟨0, 1⟩
    From := ⟨"", "", ""⟩, To := ⟨"", "", ""⟩
    RouteId := "", RouteShortName := "", RouteLongName := "", AgencyName := ""
    LegGeometry := ⟨"??"⟩, IntermediateStops := 0 }

/-- A US transit request. -/
def reqTransitUS : RouteRequest :=
  { FromLat := ⟨0, 1⟩, FromLng := ⟨0, 1⟩, ToLat := ⟨0, 1⟩, ToLng := ⟨0, 1⟩
    FromDesc := "", ToDesc := "", Mode := ModeTransit, Units := UnitKilometers
    Country := "us" }

/-- A Transitland response with one itinerary of two point legs. -/
def tRespTwoWalkLegs : transitlandResponse :=
  ⟨⟨[⟨⟨0, 1⟩, ⟨0, 1⟩, ⟨0, 1⟩, ⟨0, 1⟩, [walkLegPoint, walkLegPoint]⟩]⟩⟩

/-- C5 counterexample.  Each leg decodes to the single retained point
`(0,0)`; `routeTransitUS` concatenates the per-leg decodings without
re-deduplicating, so the assembled path carries two consecutive retained
points at Manhattan distance 0 ≤ 2. -/
theorem transit_path_dedup_violated_counterexample :
    (assembleTransit reqTransitUS tRespTwoWalkLegs).map (fun r => r.Path.Points) =
        .ok [(0, 0), (0, 0)] ∧
      manhattan (0, 0) (0, 0) ≤ 2 := by decide

/-- Points contributed by the legs concatenate segment-wise. -/
theorem transitSteps_points (req : RouteRequest) (i : Nat) (legs : List transitLeg) :
    (transitSteps req i legs).2 = legs.foldr (fun leg acc => transitLegPoints leg ++ acc) [] := by
  induction legs generalizing i with
  | nil => rfl
  | cons leg rest ih => simp [transitSteps, ih]

/-- C5 amended.  The dedup invariant (consecutive retained points more than
Manhattan distance 2 apart) holds for every direct-routing result, and within
each itinerary leg's decoded segment — but the itinerary adapter concatenates
those segments without re-deduplicating, so it need not hold across leg
boundaries. -/
theorem path_dedup_direct_and_per_leg :
    (∀ (req : RouteRequest) (v : valhallaResponse),
      ((assembleValhalla req v).Path.Points).Chain' (fun p q => 2 < manhattan p q))
    ∧ (∀ leg : transitLeg,
      (transitLegPoints leg).Pairwise (fun p q => 2 < manhattan p q)) := by
  constructor
  · intro req v
    unfold assembleValhalla
    cases v.Trip.Legs with
    | nil => exact List.chain'_nil
    | cons leg rest => exact (decodePolyline_pairwise leg.Shape).chain'
  · intro leg
    unfold transitLegPoints
    split
    · exact decodePolyline_pairwise _
    · exact List.Pairwise.nil

/-! ## C10: itinerary summary distance is the walk distance only -/

/-- C10.  For every itinerary-adapter result, the summary distance is exactly
the first itinerary's `walkDistance` converted to the requested units (transit
legs contribute nothing to it), and the summary duration is the itinerary's
total duration. -/
theorem transit_distance_walk_only_duration_total (req : RouteRequest)
    (t : transitlandResponse) (itinerary : transitItinerary) (rest : List transitItinerary)
    (r : RouteResponse) (hits : t.Plan.Itineraries = itinerary :: rest)
    (hok : assembleTransit req t = .ok r) :
    r.Distance = convertDistance itinerary.WalkDistance req.Units ∧
      r.Duration = itinerary.Duration := by
  unfold assembleTransit at hok
  rw [hits] at hok
  simp only [Except.ok.injEq] at hok
  subst hok
  exact ⟨rfl, rfl⟩

/-- The single itinerary used by the C10 witness: duration 625 s, walk
distance 1000 m, no legs. -/
def itinWalkOnly : transitItinerary := ⟨⟨625, 1⟩, ⟨0, 1⟩, ⟨0, 1⟩, ⟨1000, 1⟩, []⟩

/-- Transitland response wrapping `itinWalkOnly`. -/
def tRespWalkOnly : transitlandResponse := ⟨⟨[itinWalkOnly]⟩⟩

/-- The result `assembleTransit` produces for `tRespWalkOnly`. -/
def rWalkOnly : RouteResponse :=
  { Duration := ⟨625, 1⟩, Distance := ⟨1000, 1000⟩, Units := UnitKilometers
    Steps := [], Path := ⟨[], 0, 100, 100⟩, Mode := ModeTransit
    From := ⟨"", ⟨0, 1⟩, ⟨0, 1⟩⟩, To := ⟨"", ⟨0, 1⟩, ⟨0, 1⟩⟩ }

/-- C10, witnessed on the concrete one-itinerary response. -/
theorem transit_distance_walk_only_duration_total_witness :
    tRespWalkOnly.Plan.Itineraries = itinWalkOnly :: [] ∧
      assembleTransit reqTransitUS tRespWalkOnly = .ok rWalkOnly ∧
      (rWalkOnly.Distance = convertDistance itinWalkOnly.WalkDistance reqTransitUS.Units ∧
        rWalkOnly.Duration = itinWalkOnly.Duration) :=
  ⟨by decide, by decide,
    transit_distance_walk_only_duration_total reqTransitUS tRespWalkOnly itinWalkOnly []
      rWalkOnly (by decide) (by decide)⟩

/-! ## C1: the transit → auto fallback fires exactly once -/

/-- A valid unit token is nonempty. -/
theorem distanceUnit_valid_ne_empty (u : DistanceUnit) (h : DistanceUnit.IsValid u) :
    u ≠ "" := by
  simp only [DistanceUnit.IsValid, UnitKilometers, UnitMiles] at h
  rcases of_decide_eq_true h with h' | h' <;> (rw [h']; decide)

/-- Units defaulting is the identity on requests with valid units. -/
theorem normUnits_of_valid (req : RouteRequest) (h : DistanceUnit.IsValid req.Units) :
    normUnits req = req := by
  unfold normUnits
  rw [if_neg (distanceUnit_valid_ne_empty req.Units h)]

/-- Unfolding of `routeTrace` in the non-dispatch, valid-units case: one
Valhalla call whose outcome drives the rest. -/
theorem routeTrace_direct (cfg : NavConfig)
    (tl : RouteRequest → Except String transitlandResponse)
    (v : RouteRequest → ValhallaOutcome) (req : RouteRequest)
    (h1 : ¬ (req.Mode = ModeTransit ∧ req.Country = "us" ∧ cfg.TransitlandURL ≠ ""))
    (h2 : DistanceUnit.IsValid (normUnits req).Units) :
    routeTrace cfg tl v req =
      (match v (normUnits req) with
      | .ok resp => ([normUnits req], .ok (assembleValhalla (normUnits req) resp))
      | .netErr m => ([normUnits req], .error ("error making request to Valhalla: " ++ m))
      | .httpErr status none raw =>
        ([normUnits req],
          .error ("valhalla API returned status " ++ natToDec status ++ ": " ++ raw))
      | .httpErr _ (some e) _ =>
        if e.ErrorCode = 170 then
          if (normUnits req).Mode = ModeTransit then
            (normUnits req :: (routeTrace cfg tl v { normUnits req with Mode := ModeAuto }).1,
              (routeTrace cfg tl v { normUnits req with Mode := ModeAuto }).2)
          else
            ([normUnits req],
              .error "no route found: locations are not connected in the transportation network")
        else ([normUnits req], .error ("routing error: " ++ e.Error))) := by
  rw [routeTrace]
  rw [if_neg h1]
  simp only [h2, not_true_eq_false, if_false]
  cases hv : v (normUnits req) with
  | ok resp => rfl
  | netErr m => rfl
  | httpErr status parsed raw =>
    cases parsed with
    | none => rfl
    | some e => rfl

/-- A non-transit request with valid units issues exactly one Valhalla call,
whatever its outcome. -/
theorem routeTrace_single_call (cfg : NavConfig)
    (tl : RouteRequest → Except String transitlandResponse)
    (v : RouteRequest → ValhallaOutcome) (req : RouteRequest)
    (hmode : req.Mode ≠ ModeTransit) (hunits : DistanceUnit.IsValid req.Units) :
    (routeTrace cfg tl v req).1 = [req] := by
  have hnorm : normUnits req = req := normUnits_of_valid req hunits
  have h1 : ¬ (req.Mode = ModeTransit ∧ req.Country = "us" ∧ cfg.TransitlandURL ≠ "") :=
    fun h => hmode h.1
  rw [routeTrace_direct cfg tl v req h1 (by rw [hnorm]; exact hunits), hnorm]
  cases v req with
  | ok resp => rfl
  | netErr m => rfl
  | httpErr status parsed raw =>
    cases parsed with
    | none => rfl
    | some e =>
      by_cases hc : e.ErrorCode = 170
      · simp [hc, hmode]
      · simp [hc]

/-- C1.  When a transit-mode request is routed through the direct adapter and
Valhalla answers with structured error code 170 ("locations are not
connected"), `route` re-issues exactly once with the mode forced to auto: the
call trace is the original request followed by the auto clone, the auto clone
itself performs exactly one backend call (so no second fallback can happen,
whatever that retry returns — including another 170), and the overall result
is exactly the result of routing the auto clone. -/
theorem transit_fallback_retries_auto_exactly_once (cfg : NavConfig)
    (tl : RouteRequest → Except String transitlandResponse)
    (v : RouteRequest → ValhallaOutcome) (req : RouteRequest)
    (st : Nat) (e : ValhallaError) (raw : String)
    (hmode : req.Mode = ModeTransit)
    (hdisp : ¬ (req.Country = "us" ∧ cfg.TransitlandURL ≠ ""))
    (hunits : DistanceUnit.IsValid (normUnits req).Units)
    (hv : v (normUnits req) = .httpErr st (some e) raw)
    (hcode : e.ErrorCode = 170) :
    routeTrace cfg tl v req =
      (normUnits req :: (routeTrace cfg tl v { normUnits req with Mode := ModeAuto }).1,
        (routeTrace cfg tl v { normUnits req with Mode := ModeAuto }).2)
    ∧ (routeTrace cfg tl v { normUnits req with Mode := ModeAuto }).1 =
        [{ normUnits req with Mode := ModeAuto }]
    ∧ route cfg tl v req = route cfg tl v { normUnits req with Mode := ModeAuto } := by
  have h1 : ¬ (req.Mode = ModeTransit ∧ req.Country = "us" ∧ cfg.TransitlandURL ≠ "") :=
    fun h => hdisp ⟨h.2.1, h.2.2⟩
  have hm : (normUnits req).Mode = ModeTransit := by rw [normUnits_Mode]; exact hmode
  have hconj1 : routeTrace cfg tl v req =
      (normUnits req :: (routeTrace cfg tl v { normUnits req with Mode := ModeAuto }).1,
        (routeTrace cfg tl v { normUnits req with Mode := ModeAuto }).2) := by
    rw [routeTrace_direct cfg tl v req h1 hunits, hv]
    simp only []
    rw [if_pos hcode, if_pos hm]
  refine ⟨hconj1, ?_, ?_⟩
  · exact routeTrace_single_call cfg tl v _ (by simp [ModeAuto, ModeTransit]) hunits
  · unfold route
    rw [hconj1]

/-- A transit request outside the itinerary adapter's scope (no country). -/
def reqTransitNoUS : RouteRequest :=
  { FromLat := ⟨407128, 10000⟩, FromLng := ⟨-740060, 10000⟩
    ToLat := ⟨340522, 10000⟩, ToLng := ⟨-1182437, 10000⟩
    FromDesc := "", ToDesc := "", Mode := ModeTransit, Units := UnitKilometers
    Country := "" }

/-- A configuration with no Transitland backend. -/
def cfgNoTransitland : NavConfig :=
  { NominatimURL := "http://nominatim", ValhallaURL := "http://valhalla"
    TransitlandURL := "", TransitlandAPIKey := "" }

/-- The Valhalla outcome used to witness C1: a structured error with code
170. -/
def valhalla170 : ValhallaOutcome :=
  .httpErr 400 (some ⟨170, "locations not connected", 400, "Bad Request"⟩) ""

/-- C1, witnessed with a constant code-170 Valhalla oracle (so even the retry
fails with the same code) on a transit request with no country code. -/
theorem transit_fallback_retries_auto_exactly_once_witness :
    (reqTransitNoUS.Mode = ModeTransit
      ∧ ¬ (reqTransitNoUS.Country = "us" ∧ cfgNoTransitland.TransitlandURL ≠ "")
      ∧ DistanceUnit.IsValid (normUnits reqTransitNoUS).Units
      ∧ (fun _ : RouteRequest => valhalla170) (normUnits reqTransitNoUS) =
          .httpErr 400 (some ⟨170, "locations not connected", 400, "Bad Request"⟩) ""
      ∧ (170 : Int) = 170)
    ∧ (routeTrace cfgNoTransitland (fun _ => .error "unused") (fun _ => valhalla170)
          reqTransitNoUS =
        (normUnits reqTransitNoUS ::
          (routeTrace cfgNoTransitland (fun _ => .error "unused") (fun _ => valhalla170)
            { normUnits reqTransitNoUS with Mode := ModeAuto }).1,
          (routeTrace cfgNoTransitland (fun _ => .error "unused") (fun _ => valhalla170)
            { normUnits reqTransitNoUS with Mode := ModeAuto }).2)
      ∧ (routeTrace cfgNoTransitland (fun _ => .error "unused") (fun _ => valhalla170)
          { normUnits reqTransitNoUS with Mode := ModeAuto }).1 =
          [{ normUnits reqTransitNoUS with Mode := ModeAuto }]
      ∧ route cfgNoTransitland (fun _ => .error "unused") (fun _ => valhalla170)
          reqTransitNoUS =
        route cfgNoTransitland (fun _ => .error "unused") (fun _ => valhalla170)
          { normUnits reqTransitNoUS with Mode := ModeAuto }) :=
  ⟨⟨by decide, by decide, by decide, rfl, rfl⟩,
    transit_fallback_retries_auto_exactly_once cfgNoTransitland
      (fun _ => .error "unused") (fun _ => valhalla170) reqTransitNoUS
      400 ⟨170, "locations not connected", 400, "Bad Request"⟩ ""
      (by decide) (by decide) (by decide) rfl rfl⟩

/-! ## C7: every POST failure yields the 4-line stub -/

/-- C7.  Whenever the plain-text (POST) route request fails — malformed body,
unparseable coordinates (both absorbed into `parsePostRouteRequest` errors) or
a routing-core error — the response body is exactly two blank lines, a
literal `0`, and the error message, each newline-terminated. -/
theorem post_failure_emits_four_line_stub
    (routeFn : RouteRequest → Except String RouteResponse) (body m : String)
    (h : parsePostRouteRequest body = .error m ∨
      ∃ req, parsePostRouteRequest body = .ok req ∧ routeFn req = .error m) :
    handleRoutePost routeFn body = "\n\n0\n" ++ m ++ "\n" := by
  unfold handleRoutePost
  rcases h with h | ⟨req, hreq, herr⟩
  · simp only [h]
  · simp only [hreq, herr]

/-- C7, witnessed on a one-line body (fewer than 5 lines). -/
theorem post_failure_emits_four_line_stub_witness :
    (parsePostRouteRequest "1,2" = .error "request must contain at least 5 lines" ∨
      ∃ req, parsePostRouteRequest "1,2" = .ok req ∧
        (fun _ : RouteRequest => (.error "x" : Except String RouteResponse)) req =
          .error "request must contain at least 5 lines") ∧
      handleRoutePost (fun _ => .error "x") "1,2" =
        "\n\n0\n" ++ "request must contain at least 5 lines" ++ "\n" :=
  ⟨Or.inl (by decide),
    post_failure_emits_four_line_stub (fun _ => .error "x") "1,2"
      "request must contain at least 5 lines" (Or.inl (by decide))⟩

/-! ## C8: line 3 is the step count; two lines per step -/

/-- The per-step block contributes exactly two lines per step. -/
theorem stepLines_length (m : TransportMode) (u : DistanceUnit) (l : List RouteStep) :
    (stepLines m u l).length = 2 * l.length := by
  induction l with
  | nil => rfl
  | cons s rest ih =>
    cases rest with
    | nil => rfl
    | cons s2 r2 =>
      have hstep : stepLines m u (s :: s2 :: r2) =
          [s.Icon,
            if m ≠ ModeTransit then
              s.Description ++ " (" ++ formatDistance s.Distance u ++ ")"
            else s.Description] ++ stepLines m u (s2 :: r2) := rfl
      rw [hstep, List.length_append, ih]
      simp only [List.length_cons, List.length_nil]
      omega

/-- Within the per-step block, position `2j` is step `j`'s icon and position
`2j+1` its description — suffixed with the formatted distance when the mode
is not transit and the step is not the last. -/
theorem stepLines_get (m : TransportMode) (u : DistanceUnit) (l : List RouteStep) :
    ∀ j (hj : j < l.length),
      (stepLines m u l).get? (2 * j) = some ((l.get ⟨j, hj⟩).Icon) ∧
      (stepLines m u l).get? (2 * j + 1) =
        some (if m ≠ ModeTransit ∧ j < l.length - 1
          then (l.get ⟨j, hj⟩).Description ++ " (" ++
            formatDistance (l.get ⟨j, hj⟩).Distance u ++ ")"
          else (l.get ⟨j, hj⟩).Description) := by
  induction l with
  | nil => intro j hj; simp at hj
  | cons s rest ih =>
    intro j hj
    cases j with
    | zero =>
      cases rest with
      | nil => simp [stepLines]
      | cons s2 r2 =>
        by_cases hm : m ≠ ModeTransit
        · simp [stepLines, hm]
        · simp [stepLines, hm]
    | succ j' =>
      cases rest with
      | nil => simp at hj
      | cons s2 r2 =>
        have hj' : j' < (s2 :: r2).length := by simp at hj ⊢; omega
        have base := ih j' hj'
        have hidx1 : 2 * (j' + 1) = 2 * j' + 1 + 1 := by ring
        have hidx2 : 2 * (j' + 1) + 1 = (2 * j' + 1) + 1 + 1 := by ring
        constructor
        · rw [hidx1]
          show (stepLines m u (s2 :: r2)).get? (2 * j') = _
          exact base.1
        · rw [hidx2]
          show (stepLines m u (s2 :: r2)).get? (2 * j' + 1) = _
          rw [base.2]
          have hcond : (m ≠ ModeTransit ∧ j' < (s2 :: r2).length - 1) ↔
              (m ≠ ModeTransit ∧ j' + 1 < (s :: s2 :: r2).length - 1) := by
            simp only [List.length_cons]
            constructor <;> (rintro ⟨h1, h2⟩; exact ⟨h1, by omega⟩)
          rw [if_congr hcond rfl rfl]
          rfl

/-- C8.  In every plain-text route response, line 3 (index 2) is the step
count, and step `j` (0-based) contributes exactly lines `3+2j` (its icon) and
`4+2j` (its description, with `" (<formatted distance>)"` appended iff the
mode is not transit and the step is not the final one). -/
theorem plaintext_line3_step_count_two_lines_per_step (r : RouteResponse) :
    (writePlainTextRouteLines r).length = 3 + 2 * r.Steps.length ∧
    (writePlainTextRouteLines r).get? 2 = some (natToDec r.Steps.length) ∧
    ∀ j (hj : j < r.Steps.length),
      (writePlainTextRouteLines r).get? (3 + 2 * j) = some ((r.Steps.get ⟨j, hj⟩).Icon) ∧
      (writePlainTextRouteLines r).get? (4 + 2 * j) =
        some (if r.Mode ≠ ModeTransit ∧ j < r.Steps.length - 1
          then (r.Steps.get ⟨j, hj⟩).Description ++ " (" ++
            formatDistance (r.Steps.get ⟨j, hj⟩).Distance r.Units ++ ")"
          else (r.Steps.get ⟨j, hj⟩).Description) := by
  refine ⟨?_, rfl, ?_⟩
  · show ([formatDuration r.Duration, formatDistance r.Distance r.Units,
      natToDec r.Steps.length] ++ stepLines r.Mode r.Units r.Steps).length = _
    rw [List.length_append, stepLines_length]
    simp
  · intro j hj
    have base := stepLines_get r.Mode r.Units r.Steps j hj
    have hidx1 : 3 + 2 * j = 2 * j + 1 + 1 + 1 := by ring
    have hidx2 : 4 + 2 * j = (2 * j + 1) + 1 + 1 + 1 := by ring
    constructor
    · rw [hidx1]
      show (stepLines r.Mode r.Units r.Steps).get? (2 * j) = _
      exact base.1
    · rw [hidx2]
      show (stepLines r.Mode r.Units r.Steps).get? (2 * j + 1) = _
      exact base.2

/-- A two-step non-transit result used to witness C8. -/
def rPlainTwoSteps : RouteResponse :=
  { Duration := ⟨625, 1⟩, Distance := ⟨32, 10⟩, Units := UnitKilometers
    Steps := [⟨1, "Head N on Main St", ⟨15, 10⟩, "Drive"⟩, ⟨2, "Arrive at destination", ⟨0, 1⟩, ""⟩]
    Path := ⟨[], 0, 100, 100⟩, Mode := ModeAuto
    From := ⟨"", ⟨0, 1⟩, ⟨0, 1⟩⟩, To := ⟨"", ⟨0, 1⟩, ⟨0, 1⟩⟩ }

/-- C8, witnessed on the first step of a concrete two-step driving result. -/
theorem plaintext_line3_step_count_two_lines_per_step_witness :
    (0 : Nat) < rPlainTwoSteps.Steps.length ∧
      ((writePlainTextRouteLines rPlainTwoSteps).get? (3 + 2 * 0) =
          some ((rPlainTwoSteps.Steps.get ⟨0, by decide⟩).Icon) ∧
        (writePlainTextRouteLines rPlainTwoSteps).get? (4 + 2 * 0) =
          some (if rPlainTwoSteps.Mode ≠ ModeTransit ∧ 0 < rPlainTwoSteps.Steps.length - 1
            then (rPlainTwoSteps.Steps.get ⟨0, by decide⟩).Description ++ " (" ++
              formatDistance (rPlainTwoSteps.Steps.get ⟨0, by decide⟩).Distance
                rPlainTwoSteps.Units ++ ")"
            else (rPlainTwoSteps.Steps.get ⟨0, by decide⟩).Description)) :=
  ⟨by decide, (plaintext_line3_step_count_two_lines_per_step rPlainTwoSteps).2.2 0 (by decide)⟩

/-! ## C9: the feet/meters thresholds are 0.1 mi and 1 km -/

/-- C9 counterexample.  0.5 is below 1 unit, yet `formatDistance` renders
`"0.5mi"` — not the feet rendering (`"2640ft"`) the claim requires below one
unit: the miles branch switches to feet only below 0.1. -/
theorem formatDistance_miles_threshold_counterexample :
    Q.lt ⟨1, 2⟩ (Q.ofInt 1) ∧
      formatDistance ⟨1, 2⟩ UnitMiles = "0.5mi" ∧
      formatDistance ⟨1, 2⟩ UnitMiles ≠ fmtF0 (Q.mul ⟨1, 2⟩ (Q.ofInt 5280)) ++ "ft" := by
  decide

/-- C9 amended.  For every non-negative distance: with miles, feet are
rendered below 0.1 mi and otherwise one decimal plus `"mi"`; with kilometers,
meters are rendered below 1 km and otherwise one decimal plus `"km"`. -/
theorem formatDistance_thresholds (q : Q) (hq : (Q.ofInt 0).le q) :
    (formatDistance q UnitMiles =
      (if q.lt ⟨1, 10⟩ then fmtF0 (q.mul (Q.ofInt 5280)) ++ "ft" else fmtF1 q ++ "mi")) ∧
    (formatDistance q UnitKilometers =
      (if q.lt (Q.ofInt 1) then fmtF0 (q.mul (Q.ofInt 1000)) ++ "m"
        else fmtF1 q ++ "km")) := by
  constructor <;> simp [formatDistance, UnitMiles, UnitKilometers]

/-- C9 amended, witnessed at 0.5: `"0.5mi"` and `"500m"`. -/
theorem formatDistance_thresholds_witness :
    (Q.ofInt 0).le ⟨1, 2⟩ ∧
      ((formatDistance ⟨1, 2⟩ UnitMiles =
        (if Q.lt ⟨1, 2⟩ ⟨1, 10⟩ then fmtF0 (Q.mul ⟨1, 2⟩ (Q.ofInt 5280)) ++ "ft"
          else fmtF1 ⟨1, 2⟩ ++ "mi")) ∧
      (formatDistance ⟨1, 2⟩ UnitKilometers =
        (if Q.lt ⟨1, 2⟩ (Q.ofInt 1) then fmtF0 (Q.mul ⟨1, 2⟩ (Q.ofInt 1000)) ++ "m"
          else fmtF1 ⟨1, 2⟩ ++ "km"))) :=
  ⟨by decide, formatDistance_thresholds ⟨1, 2⟩ (by decide)⟩

/-! ## C6: GET rejects invalid tokens; POST silently defaults them -/

/-- C6 counterexample.  A POST body with mode `"hovercraft"` and units
`"furlong"` is not rejected: the routing core is invoked — the oracle, which
echoes the mode/units it receives, answers through the response — with the
silently substituted defaults auto/km. -/
theorem post_invalid_tokens_reach_core_counterexample :
    ¬ TransportMode.IsValid (goToLower "hovercraft") ∧
      ¬ DistanceUnit.IsValid (goToLower "furlong") ∧
      handleRoutePost (fun req => .error (req.Mode ++ "/" ++ req.Units))
        "hovercraft\nzz\nfurlong\n1,2\n3,4" = "\n\n0\nauto/km\n" := by decide

/-- Whatever token the POST parser saw, the mode it hands the core is valid:
either the token itself (when valid) or the default. -/
theorem modeDefaultedValid (m : String) :
    TransportMode.IsValid (if TransportMode.IsValid m = true then m else DefaultMode) := by
  split
  · next h => exact h
  · decide

/-- Whatever token the POST parser saw, the units it hands the core are
valid. -/
theorem unitsDefaultedValid (u : String) :
    DistanceUnit.IsValid (if DistanceUnit.IsValid u = true then u else DefaultUnit) := by
  split
  · next h => exact h
  · decide

set_option maxHeartbeats 1000000 in
/-- C6 amended.  On the GET verb an invalid mode or units token is rejected
at the boundary with a client-fault 400 before any routing (the reply is the
same for every routing core); on the POST verb invalid tokens are never
rejected — every request the POST parser hands to the core carries valid
(silently defaulted) mode and units. -/
theorem get_rejects_post_defaults_invalid_tokens :
    (∀ (routeFn : RouteRequest → Except String RouteResponse) (p : GetParams),
      p.fromQ ≠ "" → p.toQ ≠ "" →
      (goToLower p.country = "" ∨ CountryCode.IsValid (goToLower p.country)) →
      p.mode ≠ "" → ¬ TransportMode.IsValid (goToLower p.mode) →
      handleRouteGet routeFn p =
        .err 400 "invalid mode. Must be one of: walking, biking, auto, transit")
    ∧ (∀ (routeFn : RouteRequest → Except String RouteResponse) (p : GetParams),
      p.fromQ ≠ "" → p.toQ ≠ "" →
      (goToLower p.country = "" ∨ CountryCode.IsValid (goToLower p.country)) →
      (p.mode = "" ∨ TransportMode.IsValid (goToLower p.mode)) →
      p.units ≠ "" → ¬ DistanceUnit.IsValid (goToLower p.units) →
      handleRouteGet routeFn p = .err 400 "invalid units. Must be one of: km, mi")
    ∧ (∀ (body : String) (req : RouteRequest), parsePostRouteRequest body = .ok req →
      TransportMode.IsValid req.Mode ∧ DistanceUnit.IsValid req.Units) := by
  refine ⟨?_, ?_, ?_⟩
  · intro routeFn p hfrom hto hcountry hmode hmval
    simp only [handleRouteGet]
    rw [if_neg (not_or.mpr ⟨hfrom, hto⟩)]
    rw [if_neg (fun hcon => hcountry.elim (fun he => hcon.1 he) (fun hv => hcon.2 hv))]
    rw [if_pos ⟨hmode, hmval⟩]
  · intro routeFn p hfrom hto hcountry hmode hunits huval
    simp only [handleRouteGet]
    rw [if_neg (not_or.mpr ⟨hfrom, hto⟩)]
    rw [if_neg (fun hcon => hcountry.elim (fun he => hcon.1 he) (fun hv => hcon.2 hv))]
    rw [if_neg (fun hcon => hmode.elim (fun he => hcon.1 he) (fun hv => hcon.2 hv))]
    rw [if_pos ⟨hunits, huval⟩]
  · intro body req h
    simp only [parsePostRouteRequest] at h
    split at h
    · exact absurd h (by simp)
    · split at h
      · exact absurd h (by simp)
      · split at h
        · exact absurd h (by simp)
        · simp only [Except.ok.injEq] at h
          subst h
          exact ⟨modeDefaultedValid _, unitsDefaultedValid _⟩

/-- GET parameters with an invalid mode token. -/
def gpInvalidMode : GetParams := ⟨"1,2", "3,4", "hovercraft", "", "", "", ""⟩

/-- C6 amended, witnessed: GET with mode `"hovercraft"` is rejected with the
client-fault invalid-mode message, whatever the core would do. -/
theorem get_rejects_post_defaults_invalid_tokens_witness :
    (gpInvalidMode.fromQ ≠ "" ∧ gpInvalidMode.toQ ≠ "" ∧
      (goToLower gpInvalidMode.country = "" ∨
        CountryCode.IsValid (goToLower gpInvalidMode.country)) ∧
      gpInvalidMode.mode ≠ "" ∧ ¬ TransportMode.IsValid (goToLower gpInvalidMode.mode)) ∧
      handleRouteGet (fun _ => .error "unused") gpInvalidMode =
        .err 400 "invalid mode. Must be one of: walking, biking, auto, transit" :=
  ⟨⟨by decide, by decide, by decide, by decide, by decide⟩,
    get_rejects_post_defaults_invalid_tokens.1 (fun _ => .error "unused") gpInvalidMode
      (by decide) (by decide) (by decide) (by decide) (by decide)⟩

end FujiNav
